import Mathlib

/-!
Verification of the validation layer of the purser wallet library.

The validators under scrutiny live in `src/trezor/validators.js`; the
library facade lives in the unnamed index module. The helper modules
`utils` (assertTruth, validatorGenerator, objectToErrorString),
`defaults` (PATH, MATCH, SPLITTER, UNDEFINED, ENV) and `trezor/messages`
are not part of the sources; their definitions below are modelled from
the specification and are marked as such.

JavaScript semantics embedded here:
  * strings are Lean strings (sequences of unicode scalar values; the
    inputs of interest are ASCII, where JS `length` agrees with ours);
  * numbers are `NaN` or a rational (finite doubles are a subset of the
    rationals; every value the claims mention is an integer or NaN);
  * a validator returns `Except JSError Bool`: `Except.ok true` models a
    normal `true` return, `Except.error (JSError.error m)` models
    `throw new Error(m)`, and `Except.error (JSError.typeError m)` models
    an uncaught low-level TypeError (calling a string method on a value
    that lacks it).  In the source each validator first builds its
    `validationSequence` array, whose `expression` fields are evaluated
    eagerly, so a string-method call on a non-string throws before the
    generator runs; the embedding mirrors this by returning a
    `typeError` in the non-string branches of `addressValidator`,
    `hexSequenceValidator` and (for `null`/`undefined` input, where the
    `.length` access itself throws) `messageValidator`.
-/

/-- A JavaScript number: `NaN` or a finite value (modelled as a rational;
the set of finite doubles is a subset). Infinities are omitted: no code
path of the validators produces or distinguishes them. -/
inductive JSNumber where
  | nan : JSNumber
  | val : ℚ → JSNumber
deriving DecidableEq

/-- A JavaScript value, covering the kinds the validators can receive. -/
inductive JSValue where
  | str : String → JSValue
  | num : JSNumber → JSValue
  | boolean : Bool → JSValue
  | nullv : JSValue
  | undef : JSValue
  | obj : String → JSValue
deriving DecidableEq

/-- A thrown JavaScript error: a `new Error(message)` raised deliberately
by a validator, or a low-level `TypeError` escaping from a method call on
a value that lacks the method. -/
inductive JSError where
  | error : String → JSError
  | typeError : String → JSError
deriving DecidableEq

/-- A convenient packaging of an integer JS number value. -/
def jsNumber (n : ℤ) : JSValue := JSValue.num (JSNumber.val (n : ℚ))

namespace JSNumber

/-- JS `Number.isSafeInteger`: an exact integer of magnitude at most
`2^53 - 1 = 9007199254740991`; false on NaN. -/
def isSafeInteger : JSNumber → Bool
  | nan => false
  | val q => q.den == 1 && q.num.natAbs ≤ 9007199254740991

/-- JS `n >= 0` on a number: false on NaN. -/
def geZero : JSNumber → Bool
  | nan => false
  | val q => 0 ≤ q

/-- JS number-to-string conversion as a template literal performs it.
NaN prints as `NaN` and exact integers print in decimal; the rendering
of non-integer finite values (which JS prints as shortest round-tripping
decimals) is approximated by a fixed marker — no claim exercises it. -/
def toDisplay : JSNumber → String
  | nan => "NaN"
  | val q =>
      if q.den = 1 then
        (if q.num < 0 then "-" ++ toString q.num.natAbs else toString q.num.natAbs)
      else "[non-integer number]"

end JSNumber

namespace JSValue

/-- JS `typeof`. -/
def typeofStr : JSValue → String
  | str _ => "string"
  | num _ => "number"
  | boolean _ => "boolean"
  | nullv => "object"
  | undef => "undefined"
  | obj _ => "object"

/-- JS truthiness of a value. -/
def truthy : JSValue → Bool
  | str s => s ≠ ""
  | num JSNumber.nan => false
  | num (JSNumber.val q) => q ≠ 0
  | boolean b => b
  | nullv => false
  | undef => false
  | obj _ => true

/-- JS string interpolation of a value (template literal). Objects print
as `[object Object]` as in JS. -/
def toDisplay : JSValue → String
  | str s => s
  | num n => n.toDisplay
  | boolean b => if b then "true" else "false"
  | nullv => "null"
  | undef => "undefined"
  | obj _ => "[object Object]"

end JSValue

/-- Modelled from the spec: the `UNDEFINED` placeholder constant of the
missing `defaults` module — "an explicit undefined placeholder" used when
the offending value is falsy. -/
def UNDEFINED : String := "undefined"

/-- The JS idiom `v || UNDEFINED` inside a template literal: the value's
own rendering when it is truthy, the placeholder otherwise. -/
def JSValue.orUndefined (v : JSValue) : String :=
  if v.truthy then v.toDisplay else UNDEFINED

/-- The same idiom applied to a plain string (`segment || UNDEFINED`). -/
def strOrUndefined (s : String) : String :=
  if s = "" then UNDEFINED else s

/-- Modelled from the spec: the message catalogue of the missing
`trezor/messages` module. Only the categories the spec names are
modelled; the concrete wording is representative, the categories are
pairwise distinct strings. -/
structure DerivationPathMessages where
  notString : String
  notValidParts : String
  notValidHeaderKey : String
  notValidPurpouse : String
  notValidCoin : String
  notValidAccount : String
  notValidChangeIndex : String
  notValidAccountIndex : String
  genericError : String

def derivationPathMessages : DerivationPathMessages where
  notString := "Derivation path is not a string"
  notValidParts := "Derivation path does not have the correct number of parts"
  notValidHeaderKey := "Derivation path does not have the correct header key"
  notValidPurpouse := "Derivation path does not have the Ethereum reserved purpouse"
  notValidCoin := "Derivation path does not have the correct coin type"
  notValidAccount := "Derivation path does not have a valid account"
  notValidChangeIndex := "Derivation path does not have a valid change or account index"
  notValidAccountIndex := "Derivation path has too many account indexes"
  genericError := "Something went wrong while validating the derivation path"

structure SafeIntegerMessages where
  notNumber : String
  notPositive : String
  notSafe : String
  genericError : String

def safeIntegerMessages : SafeIntegerMessages where
  notNumber := "The value passed in is not a number primitive"
  notPositive := "The integer passed in is not positive"
  notSafe := "The integer passed in is outside the safe range"
  genericError := "Something went wrong while validating the integer"

structure AddressMessages where
  notStringSequence : String
  notLength : String
  notFormat : String
  genericError : String

def addressMessages : AddressMessages where
  notStringSequence := "The address passed in is not a string"
  notLength := "The address does not have the correct length"
  notFormat := "The address is not in the correct format"
  genericError := "Something went wrong while validating the address"

structure HexSequenceMessages where
  notStringSequence : String
  notFormat : String
  tooBig : String
  genericError : String

def hexSequenceMessages : HexSequenceMessages where
  notStringSequence := "The hex sequence passed in is not a string"
  notFormat := "The hex sequence is not in the correct format"
  tooBig := "The hex sequence is too big in size"
  genericError := "Something went wrong while validating the hex sequence"

structure MessageMessages where
  notString : String
  tooBig : String
  genericError : String

def messageMessages : MessageMessages where
  notString := "The message passed in is not a string"
  tooBig := "The message is too big in size"
  genericError := "Something went wrong while validating the message"

/-- A validation rule, as the source builds it: the (already evaluated)
boolean `expression` and the failure `message`. Messages that the source
builds as arrays of fragments are joined with single spaces at the
construction site, mirroring the missing `utils` joiner the spec
describes ("list fragments, if present, joined into one string"). -/
structure ValidationRule where
  expression : Bool
  message : String

/-- Modelled from the spec: the fail-fast core of `validatorGenerator`
from the missing `utils` module — evaluate each rule in order, throw the
first failing rule's message, return `true` when all pass. -/
def runSequence : List ValidationRule → Except JSError Bool
  | [] => Except.ok true
  | r :: rs => if r.expression then runSequence rs else Except.error (JSError.error r.message)

/-- Modelled from the spec: `validatorGenerator` of the missing `utils`
module. An empty (malformed) rule list fails with the generic fallback
message; otherwise the rules run fail-fast in order. -/
def validatorGenerator (seq : List ValidationRule) (genericMessage : String) :
    Except JSError Bool :=
  if seq.isEmpty then Except.error (JSError.error genericMessage) else runSequence seq

/-- Modelled from the spec: `assertTruth` of the missing `utils` module —
throw the message when the expression is false. -/
def assertTruth (expression : Bool) (message : String) : Except JSError Unit :=
  if expression then Except.ok () else Except.error (JSError.error message)

/-- Modelled from the spec: `objectToErrorString` of the missing `utils`
module — "a serialized representation of whatever was actually passed".
Only reached on messages for values the claims never render. -/
def objectToErrorString (v : JSValue) : String := v.toDisplay

/-- JS `typeof integer === 'number'` etc., as a Bool. -/
def typeofIs (v : JSValue) (t : String) : Bool := v.typeofStr == t

/-- The value of the longest digit run at the head of the characters, if
there is at least one digit. -/
def digitRunValue (l : List Char) : Option Nat :=
  let ds := l.takeWhile Char.isDigit
  if ds.isEmpty then none
  else some (ds.foldl (fun acc c => acc * 10 + (c.toNat - 48)) 0)

/-- JS `parseInt(s, 10)`: skip leading whitespace, read an optional sign
and then the longest run of decimal digits; `none` models `NaN` (no
digits at all). -/
def jsParseInt (s : String) : Option Int :=
  let l := s.data.dropWhile (fun c => c = ' ' ∨ c = '\t' ∨ c = '\n' ∨ c = '\r')
  match l with
  | '-' :: rest => (digitRunValue rest).map (fun n => -(n : Int))
  | '+' :: rest => (digitRunValue rest).map (fun n => (n : Int))
  | _ => (digitRunValue l).map (fun n => (n : Int))

/-- JS `parseInt` applied to an array element that may be `undefined`
(out of bounds): `parseInt(undefined, 10)` is `NaN`. -/
def jsParseIntOpt : Option String → Option Int
  | none => none
  | some s => jsParseInt s

/-- JS `Number(s)` coercion of a string, approximated on the decimal
integer fragment of the numeric grammar: a trimmed empty string is `0`,
an optionally signed all-digit string is its value, everything else is
`NaN` (the float/hex forms are not exercised by any claim). -/
def jsStringToNumber (s : String) : JSNumber :=
  let l := s.data.dropWhile (fun c => c = ' ' ∨ c = '\t' ∨ c = '\n' ∨ c = '\r')
  let core := match l with
    | '-' :: rest => (if rest ≠ [] ∧ rest.all Char.isDigit then
        (digitRunValue rest).map (fun n => -(n : ℚ)) else none)
    | '+' :: rest => (if rest ≠ [] ∧ rest.all Char.isDigit then
        (digitRunValue rest).map (fun n => (n : ℚ)) else none)
    | [] => some 0
    | _ => (if l.all Char.isDigit then (digitRunValue l).map (fun n => (n : ℚ)) else none)
  match core with
  | none => JSNumber.nan
  | some q => JSNumber.val q

/-- The JS relational expression `v >= 0`, including the `ToNumber`
coercion applied to non-number operands (`"5" >= 0` is true, `null >= 0`
is true, `undefined >= 0` is false). Only its number branch is
observable in validator output: the type rule fails first otherwise. -/
def JSValue.relGeZero : JSValue → Bool
  | JSValue.num n => n.geZero
  | JSValue.str s => (jsStringToNumber s).geZero
  | JSValue.boolean _ => true
  | JSValue.nullv => true
  | JSValue.undef => false
  | JSValue.obj _ => false

/-- `safeIntegerValidator` from `src/trezor/validators.js`: three ordered
rules — number primitive, non-negative, `Number.isSafeInteger`. -/
def safeIntegerValidator (integer : JSValue) : Except JSError Bool :=
  let geZeroExpr : Bool := integer.relGeZero
  let safeExpr : Bool :=
    match integer with
    | JSValue.num n => n.isSafeInteger
    | _ => false
  validatorGenerator
    [ { expression := typeofIs integer "number",
        message := safeIntegerMessages.notNumber ++ ": " ++ integer.toDisplay },
      { expression := geZeroExpr,
        message := safeIntegerMessages.notPositive ++ ": " ++ integer.toDisplay },
      { expression := safeExpr,
        message := safeIntegerMessages.notSafe ++ ": " ++ integer.toDisplay } ]
    (safeIntegerMessages.genericError ++ ": " ++ integer.toDisplay)


/-- A hexadecimal digit, as the character class used by the missing
`defaults` module's patterns. -/
def isHexChar (c : Char) : Bool :=
  c.isDigit || ('a' ≤ c && c ≤ 'f') || ('A' ≤ c && c ≤ 'F')

/-- Modelled from the spec: `MATCH.DIGITS` of the missing `defaults`
module — the digits-only pattern, one or more decimal digits spanning
the whole string. -/
def matchDIGITS (s : String) : Bool :=
  !s.data.isEmpty && s.data.all Char.isDigit

/-- One or more hex digits, the body shared by the address and hex
sequence patterns. -/
def hexBody (l : List Char) : Bool := !l.isEmpty && l.all isHexChar

/-- Modelled from the spec: `MATCH.HEX_STRING` of the missing `defaults`
module — a hex string with or without the `0x` prefix, spanning the
whole string. -/
def matchHEX_STRING (s : String) : Bool :=
  hexBody s.data ||
    (match s.data with
     | '0' :: 'x' :: rest => hexBody rest
     | _ => false)

/-- Modelled from the spec: `MATCH.ADDRESS` of the missing `defaults`
module — exactly 40 hex digits, with or without the `0x` prefix,
spanning the whole string. -/
def matchADDRESS (s : String) : Bool :=
  (s.data.length == 40 && s.data.all isHexChar) ||
    (match s.data with
     | '0' :: 'x' :: rest => rest.length == 40 && rest.all isHexChar
     | _ => false)

/-- `addressValidator` from `src/trezor/validators.js`: ordered rules —
string, length 40 or 42, address pattern. For a non-string input the
source throws a raw TypeError while building the rule array: the
`address.length` access throws on `null`/`undefined`, and the
`address.match(...)` call throws on every other non-string. -/
def addressValidator (address : JSValue) : Except JSError Bool :=
  match address with
  | JSValue.str s =>
      validatorGenerator
        [ { expression := typeofIs (JSValue.str s) "string",
            message := addressMessages.notStringSequence ++ ": " ++
              strOrUndefined (objectToErrorString (JSValue.str s)) },
          { expression := s.length == 40 || s.length == 42,
            message := addressMessages.notLength ++ ": " ++ strOrUndefined s },
          { expression := matchADDRESS s,
            message := addressMessages.notFormat ++ ": " ++ strOrUndefined s } ]
        (addressMessages.genericError ++ ": " ++ strOrUndefined s)
  | JSValue.nullv =>
      Except.error (JSError.typeError "Cannot read properties of null (reading length)")
  | JSValue.undef =>
      Except.error (JSError.typeError "Cannot read properties of undefined (reading length)")
  | _ =>
      Except.error (JSError.typeError "address.match is not a function")

/-- `hexSequenceValidator` from `src/trezor/validators.js`: ordered
rules — string, hex pattern, then length at most 1024. Note the source
places the format rule before the size rule. For a non-string input the
`hexSequence.match(...)` call (or the property access on
`null`/`undefined`) throws a raw TypeError while the rule array is
built. -/
def hexSequenceValidator (hexSequence : JSValue) : Except JSError Bool :=
  match hexSequence with
  | JSValue.str s =>
      validatorGenerator
        [ { expression := typeofIs (JSValue.str s) "string",
            message := hexSequenceMessages.notStringSequence ++ ": " ++
              strOrUndefined (objectToErrorString (JSValue.str s)) },
          { expression := matchHEX_STRING s,
            message := hexSequenceMessages.notFormat ++ ": " ++ strOrUndefined s },
          { expression := decide (s.length ≤ 1024),
            message := hexSequenceMessages.tooBig ++ ": " ++ strOrUndefined s } ]
        (hexSequenceMessages.genericError ++ ": " ++ strOrUndefined s)
  | JSValue.nullv =>
      Except.error (JSError.typeError "Cannot read properties of null (reading match)")
  | JSValue.undef =>
      Except.error (JSError.typeError "Cannot read properties of undefined (reading match)")
  | _ =>
      Except.error (JSError.typeError "hexSequence.match is not a function")

/-- `messageValidator` from `src/trezor/validators.js`: ordered rules —
string, then length at most 1024; no pattern rule. The `string.length`
access throws a raw TypeError on `null`/`undefined`; on any other
non-string it yields `undefined`, the comparison with 1024 is false, and
the string rule fails first with its categorized message. -/
def messageValidator (string : JSValue) : Except JSError Bool :=
  match string with
  | JSValue.nullv =>
      Except.error (JSError.typeError "Cannot read properties of null (reading length)")
  | JSValue.undef =>
      Except.error (JSError.typeError "Cannot read properties of undefined (reading length)")
  | v =>
      let lengthExpr : Bool :=
        match v with
        | JSValue.str s => decide (s.length ≤ 1024)
        | _ => false
      validatorGenerator
        [ { expression := typeofIs v "string",
            message := messageMessages.notString ++ ": " ++
              strOrUndefined (objectToErrorString v) },
          { expression := lengthExpr,
            message := messageMessages.tooBig ++ ": " ++ v.orUndefined } ]
        (messageMessages.genericError ++ ": " ++ v.orUndefined)

/-- JS `String.prototype.toLowerCase`, character-wise. -/
def jsToLowerCase (s : String) : String := String.mk (s.data.map Char.toLower)

/-- `sep` stripped from the head of `l`, when it is a prefix of `l`. -/
def stripLeadingSep : List Char → List Char → Option (List Char)
  | [], l => some l
  | _ :: _, [] => none
  | s :: ss, c :: cs => if c = s then stripLeadingSep ss cs else none

/-- Fuel-driven worker for `jsSplit`: `current` holds the reversed
characters of the token being read. With fuel at least `l.length + 1`
and a non-empty separator the fuel never runs out. -/
def jsSplitAux (sep : List Char) : Nat → List Char → List Char → List (List Char)
  | 0, current, l => [current.reverse ++ l]
  | fuel + 1, current, l =>
      match stripLeadingSep sep l with
      | some rest => current.reverse :: jsSplitAux sep fuel [] rest
      | none =>
          match l with
          | [] => [current.reverse]
          | c :: cs => jsSplitAux sep fuel (c :: current) cs

/-- JS `String.prototype.split` with a non-empty string separator:
tokens between non-overlapping left-to-right separator occurrences,
empty tokens kept (`""` splits to `[""]`, `"a/"` to `["a", ""]`). -/
def jsSplit (sep l : List Char) : List (List Char) :=
  jsSplitAux sep (l.length + 1) [] l

/-- `jsSplit` over Lean strings. -/
def jsSplitStr (sep s : String) : List String :=
  (jsSplit sep.data s.data).map String.mk


/-- Modelled from the spec: the `PATH` constants of the missing
`defaults` module. The header key, purpose 44 and coin ids {60, 1} are
given by the spec directly. The delimiter must be the two-character
sequence apostrophe-slash: the spec requires that a conforming path such
as `m/44'/60'/0'/0` deserializes into exactly 4 segments and validates,
which a split on `/` alone (5 segments) would contradict. -/
structure PathConstants where
  DELIMITER : String
  HEADER_KEY : String
  PURPOSE : Int
  COIN_MAINNET : Int
  COIN_TESTNET : Int

def PATH : PathConstants where
  DELIMITER := "'/"
  HEADER_KEY := "m"
  PURPOSE := 44
  COIN_MAINNET := 60
  COIN_TESTNET := 1

/-- Modelled from the spec: the `SPLITTER` constant of the missing
`defaults` module — the internal splitter of the header and of the
change/index segment, a single slash. -/
def SPLITTER : String := "/"

/-- `derivationPathValidator` from `src/trezor/validators.js`. A
non-string input makes `derivationPath.split(...)` throw inside the
try block, re-thrown as the categorized not-a-string error naming
`derivationPath || UNDEFINED`. A string input is split on the
delimiter; the part count is asserted to be 4 first (the source does
this with `assertTruth` before building the rule array, since the rule
expressions index into the parts), then the 6-rule sequence runs. -/
def derivationPathValidator (derivationPath : JSValue) : Except JSError Bool :=
  match derivationPath with
  | JSValue.str s =>
      let deSerializedDerivationPath : List String := jsSplitStr PATH.DELIMITER s
      let coinType : Option Int := jsParseIntOpt (deSerializedDerivationPath.get? 1)
      match assertTruth (deSerializedDerivationPath.length == 4)
          (" ".intercalate
            ([derivationPathMessages.notValidParts ++ ": ["] ++
              deSerializedDerivationPath ++ ["]"])) with
      | Except.error e => Except.error e
      | Except.ok _ =>
          let part0 := deSerializedDerivationPath.getD 0 ""
          let part1 := deSerializedDerivationPath.getD 1 ""
          let part2 := deSerializedDerivationPath.getD 2 ""
          let part3 := deSerializedDerivationPath.getD 3 ""
          validatorGenerator
            [ { expression :=
                  jsToLowerCase ((jsSplitStr SPLITTER part0).headD "") == PATH.HEADER_KEY,
                message := " ".intercalate
                  [derivationPathMessages.notValidHeaderKey ++ ":", strOrUndefined part0] },
              { expression :=
                  jsParseIntOpt ((jsSplitStr SPLITTER part0).get? 1) == some PATH.PURPOSE,
                message := " ".intercalate
                  [derivationPathMessages.notValidPurpouse ++ ":", strOrUndefined part0] },
              { expression :=
                  coinType == some PATH.COIN_MAINNET || coinType == some PATH.COIN_TESTNET,
                message := " ".intercalate
                  [derivationPathMessages.notValidCoin ++ ":", strOrUndefined part1] },
              { expression := matchDIGITS part2,
                message := " ".intercalate
                  [derivationPathMessages.notValidAccount ++ ":", strOrUndefined part2] },
              { expression := (jsSplitStr SPLITTER part3).all matchDIGITS,
                message := " ".intercalate
                  [derivationPathMessages.notValidChangeIndex ++ ":", strOrUndefined part3] },
              { expression := decide ((jsSplitStr SPLITTER part3).length ≤ 2),
                message := " ".intercalate
                  [derivationPathMessages.notValidAccountIndex ++ ":", strOrUndefined part3] } ]
            (derivationPathMessages.genericError ++ ": " ++ (JSValue.str s).orUndefined)
  | v =>
      Except.error (JSError.error
        (derivationPathMessages.notString ++ ": " ++ v.orUndefined))


/-- A member of the facade's exported surface. The wallets, utils and
about members carry the names of their own fields; the debug member is
the introspection helper object (its internals, from the missing
`debug` module, are modelled from the spec as an opaque capability). -/
inductive ExportVal where
  | walletsObj : List String → ExportVal
  | utilsObj : List String → ExportVal
  | aboutObj : List String → ExportVal
  | debugObj : ExportVal
deriving DecidableEq

/-- `Object.assign({}, base, extra)` for objects with disjoint keys,
modelled as an association list: key-wise union. -/
def jsObjectAssign (base extra : List (String × ExportVal)) :
    List (String × ExportVal) :=
  base ++ extra

/-- Modelled from the spec: the default export of the missing `debug`
module — an object carrying the debug/introspection helper under the
`debug` key. -/
def debugExport : List (String × ExportVal) := [("debug", ExportVal.debugObj)]

/-- `colonyWallet` from the unnamed facade module: the exported surface
assembled by `Object.assign` from the wallets/utils/about object and,
when the build-time `ENV` flag (from the missing `defaults` module) is
the non-production value `development`, the debug export. `ENV` is a
build-time input, so it is a parameter here. -/
def colonyWallet (env : String) : List (String × ExportVal) :=
  jsObjectAssign
    [ ("wallets", ExportVal.walletsObj ["software", "trezor", "ledger"]),
      ("utils", ExportVal.utilsObj ["bigNumber", "getRandomValues"]),
      ("about", ExportVal.aboutObj ["name", "version", "environment"]) ]
    (if env == "development" then debugExport else [])

/-! Concrete test values used by the theorems below. -/

/-- `"0x" + "a".repeat(40)`, a 42-character well-formed address. -/
def addr40a : String := String.mk ('0' :: 'x' :: List.replicate 40 'a')

/-- `"a".repeat(41)`, a 41-character string. -/
def str41a : String := String.mk (List.replicate 41 'a')

/-- `"0x" + "g".repeat(40)`, 42 characters of the right length but not
hex. -/
def addr40g : String := String.mk ('0' :: 'x' :: List.replicate 40 'g')

/-- `"0x" + "f".repeat(1024)`, a 1026-character hex string. -/
def hexPrefixed1026 : String := String.mk ('0' :: 'x' :: List.replicate 1024 'f')

/-- `"0x" + "f".repeat(1022)`, a 1024-character hex string. -/
def hexPrefixed1024 : String := String.mk ('0' :: 'x' :: List.replicate 1022 'f')

/-- `"g".repeat(1025)`, a 1025-character non-hex string. -/
def nonHex1025 : String := String.mk (List.replicate 1025 'g')

/-- `"h".repeat(1025)`, a 1025-character plain text string. -/
def longText1025 : String := String.mk (List.replicate 1025 'h')

set_option maxRecDepth 100000

/-- C5: `safeIntegerValidator` accepts exactly the non-negative
safe-integer number primitives, with fail-fast ordered checks — number
primitive first (anything else raises not-a-number), then
non-negativity (not-positive), then exact-integer safety (not-safe) —
and the four concrete examples behave as stated:
`9007199254740991` is accepted, `9007199254740992` raises not-safe,
`-1` raises not-positive and the string `"5"` raises not-a-number. -/
theorem safeInteger_spec :
    safeIntegerValidator (jsNumber 9007199254740991) = Except.ok true ∧
    safeIntegerValidator (jsNumber 9007199254740992) =
      Except.error (JSError.error (safeIntegerMessages.notSafe ++ ": 9007199254740992")) ∧
    safeIntegerValidator (jsNumber (-1)) =
      Except.error (JSError.error (safeIntegerMessages.notPositive ++ ": -1")) ∧
    safeIntegerValidator (JSValue.str "5") =
      Except.error (JSError.error (safeIntegerMessages.notNumber ++ ": 5")) ∧
    (∀ v : JSValue, v.typeofStr ≠ "number" →
      safeIntegerValidator v =
        Except.error (JSError.error
          (safeIntegerMessages.notNumber ++ ": " ++ v.toDisplay))) ∧
    (∀ n : JSNumber, n.geZero = false →
      safeIntegerValidator (JSValue.num n) =
        Except.error (JSError.error
          (safeIntegerMessages.notPositive ++ ": " ++ n.toDisplay))) ∧
    (∀ n : JSNumber, n.geZero = true → n.isSafeInteger = false →
      safeIntegerValidator (JSValue.num n) =
        Except.error (JSError.error
          (safeIntegerMessages.notSafe ++ ": " ++ n.toDisplay))) ∧
    (∀ v : JSValue, safeIntegerValidator v = Except.ok true ↔
      ∃ q : ℚ, v = JSValue.num (JSNumber.val q) ∧ 0 ≤ q ∧ q.den = 1 ∧
        q.num.natAbs ≤ 9007199254740991) := by
  refine ⟨by rfl, by rfl, by rfl, by rfl, ?_, ?_, ?_, ?_⟩
  · intro v hv
    cases v <;>
      simp_all [safeIntegerValidator, validatorGenerator, runSequence, typeofIs,
        JSValue.typeofStr]
  · intro n h
    simp [safeIntegerValidator, validatorGenerator, runSequence, typeofIs,
      JSValue.typeofStr, JSValue.relGeZero, JSValue.toDisplay, h]
  · intro n h1 h2
    simp [safeIntegerValidator, validatorGenerator, runSequence, typeofIs,
      JSValue.typeofStr, JSValue.relGeZero, JSValue.toDisplay, h1, h2]
  · intro v
    constructor
    · intro hok
      cases v with
      | num n =>
          cases n with
          | nan =>
              simp [safeIntegerValidator, validatorGenerator, runSequence, typeofIs,
                JSValue.typeofStr, JSValue.relGeZero, JSNumber.geZero] at hok
          | val q =>
              by_cases h1 : (0 : ℚ) ≤ q
              · by_cases h2 : q.den = 1
                · by_cases h3 : q.num.natAbs ≤ 9007199254740991
                  · exact ⟨q, rfl, h1, h2, h3⟩
                  · simp [safeIntegerValidator, validatorGenerator, runSequence,
                      typeofIs, JSValue.typeofStr, JSValue.relGeZero, JSNumber.geZero,
                      JSNumber.isSafeInteger, h1, h2, h3] at hok
                · simp [safeIntegerValidator, validatorGenerator, runSequence,
                    typeofIs, JSValue.typeofStr, JSValue.relGeZero, JSNumber.geZero,
                    JSNumber.isSafeInteger, h1, h2] at hok
              · simp [safeIntegerValidator, validatorGenerator, runSequence, typeofIs,
                  JSValue.typeofStr, JSValue.relGeZero, JSNumber.geZero, h1] at hok
      | str s =>
          simp [safeIntegerValidator, validatorGenerator, runSequence, typeofIs,
            JSValue.typeofStr] at hok
      | boolean b =>
          simp [safeIntegerValidator, validatorGenerator, runSequence, typeofIs,
            JSValue.typeofStr] at hok
      | nullv =>
          simp [safeIntegerValidator, validatorGenerator, runSequence, typeofIs,
            JSValue.typeofStr] at hok
      | undef =>
          simp [safeIntegerValidator, validatorGenerator, runSequence, typeofIs,
            JSValue.typeofStr] at hok
      | obj o =>
          simp [safeIntegerValidator, validatorGenerator, runSequence, typeofIs,
            JSValue.typeofStr] at hok
    · rintro ⟨q, rfl, h1, h2, h3⟩
      simp [safeIntegerValidator, validatorGenerator, runSequence, typeofIs,
        JSValue.typeofStr, JSValue.relGeZero, JSNumber.geZero, JSNumber.isSafeInteger,
        h1, h2, h3]

/-- C5 witness: the general clauses of `safeInteger_spec` instantiated —
a boolean input raises not-a-number, `-7` raises not-positive, and the
acceptance characterization applied at the number `12`. -/
theorem safeInteger_spec_witness :
    safeIntegerValidator (JSValue.boolean true) =
      Except.error (JSError.error (safeIntegerMessages.notNumber ++ ": true")) ∧
    safeIntegerValidator (jsNumber (-7)) =
      Except.error (JSError.error (safeIntegerMessages.notPositive ++ ": -7")) ∧
    safeIntegerValidator (jsNumber 12) = Except.ok true := by
  refine ⟨safeInteger_spec.2.2.2.2.1 (JSValue.boolean true) (by decide),
    ?_, ?_⟩
  · exact safeInteger_spec.2.2.2.2.2.1 (JSNumber.val ((-7 : ℤ) : ℚ)) (by decide)
  · exact (safeInteger_spec.2.2.2.2.2.2.2 (jsNumber 12)).2
      ⟨((12 : ℤ) : ℚ), rfl, by norm_num, by norm_num, by norm_num⟩

/-- C10: `NaN` is a number primitive, so the type rule passes, the
non-negativity rule `NaN >= 0` evaluates false and `safeIntegerValidator`
raises the not-positive message — which differs from the not-a-number
and not-safe messages. -/
theorem safeInteger_nan_not_positive :
    safeIntegerValidator (JSValue.num JSNumber.nan) =
      Except.error (JSError.error (safeIntegerMessages.notPositive ++ ": NaN")) ∧
    safeIntegerMessages.notPositive ++ ": NaN" ≠
      safeIntegerMessages.notNumber ++ ": NaN" ∧
    safeIntegerMessages.notPositive ++ ": NaN" ≠
      safeIntegerMessages.notSafe ++ ": NaN" := by
  exact ⟨by rfl, by decide, by decide⟩

/-- C8: `messageValidator` returns true on every string of at most 1024
characters whatever its content, and raises the too-large message on
every string of at least 1025 characters; there is no pattern rule. -/
theorem message_cap_spec :
    ∀ s : String,
      (s.length ≤ 1024 → messageValidator (JSValue.str s) = Except.ok true) ∧
      (1025 ≤ s.length → messageValidator (JSValue.str s) =
        Except.error (JSError.error (messageMessages.tooBig ++ ": " ++ s))) := by
  intro s
  constructor
  · intro h
    simp [messageValidator, validatorGenerator, runSequence, typeofIs,
      JSValue.typeofStr, h]
  · intro h
    have hne : s ≠ "" := by
      intro he
      rw [he] at h
      simp at h
    have hgt : ¬(s.length ≤ 1024) := by omega
    simp [messageValidator, validatorGenerator, runSequence, typeofIs,
      JSValue.typeofStr, hgt, JSValue.orUndefined, JSValue.truthy, hne,
      JSValue.toDisplay]

/-- C8 witness: `message_cap_spec` applied at the 5-character non-hex
string `hello` and at a 1025-character string. -/
theorem message_cap_spec_witness :
    messageValidator (JSValue.str "hello") = Except.ok true ∧
    messageValidator (JSValue.str longText1025) =
      Except.error (JSError.error (messageMessages.tooBig ++ ": " ++ longText1025)) := by
  exact ⟨(message_cap_spec "hello").1 (by decide),
    (message_cap_spec longText1025).2 (by decide)⟩

/-- Helper: `jsParseIntOpt` on a present element is `jsParseInt`. -/
theorem jsParseIntOpt_some (s : String) : jsParseIntOpt (some s) = jsParseInt s := rfl

/-- Helper: the `v || UNDEFINED` idiom on a string value coincides with
the string-level idiom. -/
theorem JSValue.orUndefined_str (s : String) :
    (JSValue.str s).orUndefined = strOrUndefined s := by
  by_cases h : s = "" <;>
    simp [JSValue.orUndefined, JSValue.truthy, JSValue.toDisplay, strOrUndefined, h]

/-- C4 counterexample: `"0x" + "f".repeat(1024)` is 1026 characters
long, which exceeds the validator's 1024-character cap, so
`hexSequenceValidator` raises the too-large error instead of passing as
the claim states. -/
theorem hex_1026_fails_cex :
    hexSequenceValidator (JSValue.str hexPrefixed1026) =
      Except.error (JSError.error
        (hexSequenceMessages.tooBig ++ ": " ++ hexPrefixed1026)) ∧
    hexSequenceValidator (JSValue.str hexPrefixed1026) ≠ Except.ok true := by
  have h : hexSequenceValidator (JSValue.str hexPrefixed1026) =
      Except.error (JSError.error
        (hexSequenceMessages.tooBig ++ ": " ++ hexPrefixed1026)) := by rfl
  exact ⟨h, by rw [h]; simp⟩

/-- C4 amended: the cap applies to the whole string including the `0x`
prefix, so the longest passing `0x`-prefixed all-`f` string is
`"0x" + "f".repeat(1022)` (1024 characters) while
`"0x" + "f".repeat(1024)` already fails; every string longer than 1024
characters fails, whatever its content (with the format error when the
content is not hex, with the too-large error when it is). -/
theorem hex_cap_behaviour :
    hexSequenceValidator (JSValue.str hexPrefixed1024) = Except.ok true ∧
    (∀ s : String, 1024 < s.length →
      ∃ m, hexSequenceValidator (JSValue.str s) =
        Except.error (JSError.error m)) := by
  refine ⟨by rfl, ?_⟩
  intro s h
  have hgt : ¬(s.length ≤ 1024) := by omega
  cases hm : matchHEX_STRING s
  · exact ⟨hexSequenceMessages.notFormat ++ ": " ++ strOrUndefined s,
      by simp [hexSequenceValidator, validatorGenerator, runSequence, typeofIs,
        JSValue.typeofStr, hm]⟩
  · exact ⟨hexSequenceMessages.tooBig ++ ": " ++ strOrUndefined s,
      by simp [hexSequenceValidator, validatorGenerator, runSequence, typeofIs,
        JSValue.typeofStr, hm, hgt]⟩

/-- C4 witness: `hex_cap_behaviour` applied to a 1025-character
non-hex string: it fails. -/
theorem hex_cap_behaviour_witness :
    ∃ m, hexSequenceValidator (JSValue.str nonHex1025) =
      Except.error (JSError.error m) := by
  exact hex_cap_behaviour.2 nonHex1025 (by decide)

/-- C6: `addressValidator` checks the length set {40, 42} before the
pattern: any string of another length raises the wrong-length error,
`"0x" + "a".repeat(40)` passes, `"a".repeat(41)` raises wrong-length,
`"0x" + "g".repeat(40)` (right length, bad characters) raises the
distinct bad-pattern error. -/
theorem address_length_before_pattern :
    (∀ s : String, s.length ≠ 40 → s.length ≠ 42 →
      addressValidator (JSValue.str s) =
        Except.error (JSError.error
          (addressMessages.notLength ++ ": " ++ strOrUndefined s))) ∧
    addressValidator (JSValue.str addr40a) = Except.ok true ∧
    addressValidator (JSValue.str str41a) =
      Except.error (JSError.error (addressMessages.notLength ++ ": " ++ str41a)) ∧
    addressValidator (JSValue.str addr40g) =
      Except.error (JSError.error (addressMessages.notFormat ++ ": " ++ addr40g)) ∧
    addressMessages.notLength ≠ addressMessages.notFormat := by
  refine ⟨?_, by rfl, by rfl, by rfl, by decide⟩
  intro s h40 h42
  simp [addressValidator, validatorGenerator, runSequence, typeofIs,
    JSValue.typeofStr, h40, h42]

/-- C6 witness: `address_length_before_pattern` applied to the
3-character string `xyz`: wrong-length. -/
theorem address_length_before_pattern_witness :
    addressValidator (JSValue.str "xyz") =
      Except.error (JSError.error (addressMessages.notLength ++ ": xyz")) := by
  exact address_length_before_pattern.1 "xyz" (by decide) (by decide)

/-- C3 counterexample: on `"g".repeat(1025)` both the shape rule
(1025 > 1024) and the format rule fail; under the claimed
type-shape-format order the raised error would be the too-large one, but
`hexSequenceValidator` raises the format error — its rules put format
before shape. Moreover on a non-string input (the number 42)
`addressValidator` does not raise its type-rule error: the raw TypeError
from the eager `address.match` call escapes instead. -/
theorem hex_order_cex :
    hexSequenceValidator (JSValue.str nonHex1025) =
      Except.error (JSError.error
        (hexSequenceMessages.notFormat ++ ": " ++ nonHex1025)) ∧
    hexSequenceMessages.notFormat ++ ": " ++ nonHex1025 ≠
      hexSequenceMessages.tooBig ++ ": " ++ nonHex1025 ∧
    addressValidator (jsNumber 42) =
      Except.error (JSError.typeError "address.match is not a function") := by
  exact ⟨by rfl, by decide, by rfl⟩

/-- C3 amended: for string inputs the type rule passes and the orders
are — addressValidator: shape (length) then format; hexSequenceValidator:
format then shape (size); messageValidator: shape only — and the first
failing rule in these orders determines the raised error. On non-string
inputs addressValidator and hexSequenceValidator throw a raw TypeError
(the rule array is built eagerly and the string-method call throws);
messageValidator raises its categorized not-a-string error except on
null/undefined, where the length access itself throws. -/
theorem validator_check_order :
    (∀ s : String,
      (s.length ≠ 40 → s.length ≠ 42 →
        addressValidator (JSValue.str s) =
          Except.error (JSError.error
            (addressMessages.notLength ++ ": " ++ strOrUndefined s))) ∧
      ((s.length = 40 ∨ s.length = 42) → matchADDRESS s = false →
        addressValidator (JSValue.str s) =
          Except.error (JSError.error
            (addressMessages.notFormat ++ ": " ++ strOrUndefined s))) ∧
      ((s.length = 40 ∨ s.length = 42) → matchADDRESS s = true →
        addressValidator (JSValue.str s) = Except.ok true) ∧
      (matchHEX_STRING s = false →
        hexSequenceValidator (JSValue.str s) =
          Except.error (JSError.error
            (hexSequenceMessages.notFormat ++ ": " ++ strOrUndefined s))) ∧
      (matchHEX_STRING s = true → 1024 < s.length →
        hexSequenceValidator (JSValue.str s) =
          Except.error (JSError.error
            (hexSequenceMessages.tooBig ++ ": " ++ strOrUndefined s))) ∧
      (matchHEX_STRING s = true → s.length ≤ 1024 →
        hexSequenceValidator (JSValue.str s) = Except.ok true) ∧
      (1024 < s.length →
        messageValidator (JSValue.str s) =
          Except.error (JSError.error
            (messageMessages.tooBig ++ ": " ++ strOrUndefined s))) ∧
      (s.length ≤ 1024 → messageValidator (JSValue.str s) = Except.ok true)) ∧
    (∀ v : JSValue, v.typeofStr ≠ "string" →
      (∃ m, addressValidator v = Except.error (JSError.typeError m)) ∧
      (∃ m, hexSequenceValidator v = Except.error (JSError.typeError m)) ∧
      (v ≠ JSValue.nullv → v ≠ JSValue.undef →
        messageValidator v =
          Except.error (JSError.error (messageMessages.notString ++ ": " ++
            strOrUndefined (objectToErrorString v)))) ∧
      (v = JSValue.nullv ∨ v = JSValue.undef →
        ∃ m, messageValidator v = Except.error (JSError.typeError m))) := by
  constructor
  · intro s
    refine ⟨?_, ?_, ?_, ?_, ?_, ?_, ?_, ?_⟩
    · intro h40 h42
      simp [addressValidator, validatorGenerator, runSequence, typeofIs,
        JSValue.typeofStr, h40, h42]
    · intro hlen hm
      rcases hlen with h | h <;>
        simp [addressValidator, validatorGenerator, runSequence, typeofIs,
          JSValue.typeofStr, h, hm]
    · intro hlen hm
      rcases hlen with h | h <;>
        simp [addressValidator, validatorGenerator, runSequence, typeofIs,
          JSValue.typeofStr, h, hm]
    · intro hm
      simp [hexSequenceValidator, validatorGenerator, runSequence, typeofIs,
        JSValue.typeofStr, hm]
    · intro hm hlen
      have hgt : ¬(s.length ≤ 1024) := by omega
      simp [hexSequenceValidator, validatorGenerator, runSequence, typeofIs,
        JSValue.typeofStr, hm, hgt]
    · intro hm hlen
      simp [hexSequenceValidator, validatorGenerator, runSequence, typeofIs,
        JSValue.typeofStr, hm, hlen]
    · intro hlen
      have hgt : ¬(s.length ≤ 1024) := by omega
      have hne : s ≠ "" := by
        intro he
        rw [he] at hlen
        simp at hlen
      simp [messageValidator, validatorGenerator, runSequence, typeofIs,
        JSValue.typeofStr, hgt, JSValue.orUndefined, JSValue.truthy,
        JSValue.toDisplay, strOrUndefined, hne]
    · intro hlen
      simp [messageValidator, validatorGenerator, runSequence, typeofIs,
        JSValue.typeofStr, hlen]
  · intro v hv
    cases v with
    | str s => simp [JSValue.typeofStr] at hv
    | num n =>
        refine ⟨⟨_, by rfl⟩, ⟨_, by rfl⟩, ?_, by simp⟩
        intro _ _
        simp [messageValidator, validatorGenerator, runSequence, typeofIs,
          JSValue.typeofStr, objectToErrorString]
    | boolean b =>
        refine ⟨⟨_, by rfl⟩, ⟨_, by rfl⟩, ?_, by simp⟩
        intro _ _
        simp [messageValidator, validatorGenerator, runSequence, typeofIs,
          JSValue.typeofStr, objectToErrorString]
    | nullv =>
        exact ⟨⟨_, by rfl⟩, ⟨_, by rfl⟩, fun h _ => absurd rfl h, fun _ => ⟨_, by rfl⟩⟩
    | undef =>
        exact ⟨⟨_, by rfl⟩, ⟨_, by rfl⟩, fun _ h => absurd rfl h, fun _ => ⟨_, by rfl⟩⟩
    | obj o =>
        refine ⟨⟨_, by rfl⟩, ⟨_, by rfl⟩, ?_, by simp⟩
        intro _ _
        simp [messageValidator, validatorGenerator, runSequence, typeofIs,
          JSValue.typeofStr, objectToErrorString]

/-- C3 witness: `validator_check_order` instantiated — a 3-character
address raises wrong-length, the short hex string `0xff` passes, the
short message `hi` passes, and the number 1 makes both the address and
the hex validator throw a TypeError. -/
theorem validator_check_order_witness :
    addressValidator (JSValue.str "abc") =
      Except.error (JSError.error (addressMessages.notLength ++ ": abc")) ∧
    hexSequenceValidator (JSValue.str "0xff") = Except.ok true ∧
    messageValidator (JSValue.str "hi") = Except.ok true ∧
    (∃ m, addressValidator (jsNumber 1) = Except.error (JSError.typeError m)) := by
  refine ⟨?_, ?_, ?_, ?_⟩
  · exact ((validator_check_order.1 "abc").1) (by decide) (by decide)
  · exact ((validator_check_order.1 "0xff").2.2.2.2.2.1) (by decide) (by decide)
  · exact ((validator_check_order.1 "hi").2.2.2.2.2.2.2) (by decide)
  · exact ((validator_check_order.2 (jsNumber 1)) (by decide)).1

/-- C1: the four conforming paths — mainnet `m/44'/60'/0'/0` and testnet
`m/44'/1'/0'/0`, each with a lower- or upper-case header — validate to
true; the deserialization of a conforming path yields exactly 4
segments; and every string whose deserialization does not yield exactly
4 segments fails with the wrong-part-count error listing the segments
produced. -/
theorem derivationPath_conforming_and_part_count :
    derivationPathValidator (JSValue.str "m/44'/60'/0'/0") = Except.ok true ∧
    derivationPathValidator (JSValue.str "M/44'/60'/0'/0") = Except.ok true ∧
    derivationPathValidator (JSValue.str "m/44'/1'/0'/0") = Except.ok true ∧
    derivationPathValidator (JSValue.str "M/44'/1'/0'/0") = Except.ok true ∧
    (jsSplitStr PATH.DELIMITER "m/44'/60'/0'/0").length = 4 ∧
    (jsSplitStr PATH.DELIMITER "m/44'/1'/0'/0").length = 4 ∧
    (∀ s : String, (jsSplitStr PATH.DELIMITER s).length ≠ 4 →
      derivationPathValidator (JSValue.str s) =
        Except.error (JSError.error (" ".intercalate
          ([derivationPathMessages.notValidParts ++ ": ["] ++
            jsSplitStr PATH.DELIMITER s ++ ["]"])))) := by
  refine ⟨by rfl, by rfl, by rfl, by rfl, by rfl, by rfl, ?_⟩
  intro s h
  simp [derivationPathValidator, assertTruth, h]

/-- C1 witness: the wrong-part-count clause of
`derivationPath_conforming_and_part_count` applied to `m/44`, which
splits into a single segment. -/
theorem derivationPath_part_count_witness :
    derivationPathValidator (JSValue.str "m/44") =
      Except.error (JSError.error (" ".intercalate
        ([derivationPathMessages.notValidParts ++ ": ["] ++
          jsSplitStr PATH.DELIMITER "m/44" ++ ["]"]))) := by
  exact derivationPath_conforming_and_part_count.2.2.2.2.2.2 "m/44" (by decide)

/-- C2 counterexample: the number 0 is neither undefined nor null, yet
the not-a-string failure raised by `derivationPathValidator` carries the
placeholder instead of naming the input `0`: the source interpolates
`derivationPath || UNDEFINED` and 0 is falsy. -/
theorem derivationPath_zero_placeholder_cex :
    derivationPathValidator (jsNumber 0) =
      Except.error (JSError.error
        (derivationPathMessages.notString ++ ": " ++ UNDEFINED)) ∧
    derivationPathMessages.notString ++ ": " ++ UNDEFINED ≠
      derivationPathMessages.notString ++ ": 0" := by
  exact ⟨by rfl, by decide⟩

/-- C2 amended: on every non-string input `derivationPathValidator`
raises the categorized not-a-string failure (no low-level error
escapes); its message names the original input when the input is truthy
and the fixed placeholder when the input is falsy (undefined, null, 0,
NaN, false) — not only for undefined/null. -/
theorem derivationPath_nonstring_categorized :
    ∀ v : JSValue, v.typeofStr ≠ "string" →
      derivationPathValidator v =
        Except.error (JSError.error
          (derivationPathMessages.notString ++ ": " ++ v.orUndefined)) := by
  intro v hv
  cases v <;> simp_all [derivationPathValidator, JSValue.typeofStr]

/-- C2 witness: `derivationPath_nonstring_categorized` applied at null:
the message carries the placeholder. -/
theorem derivationPath_nonstring_categorized_witness :
    derivationPathValidator JSValue.nullv =
      Except.error (JSError.error (derivationPathMessages.notString ++ ": " ++
        JSValue.orUndefined JSValue.nullv)) := by
  exact derivationPath_nonstring_categorized JSValue.nullv (by decide)

/-- C7: when a derivation-path string deserializes into 4 segments whose
header, purpose, coin type and account rules all pass and whose
change/index segment splits into 3 or more digit-only sub-parts, the
all-digits rule passes and the at-most-2-sub-parts rule is the failing
one: `derivationPathValidator` raises the too-many-indices error naming
the change/index segment. -/
theorem derivationPath_too_many_indices
    (s p0 p1 p2 p3 : String)
    (hsplit : jsSplitStr PATH.DELIMITER s = [p0, p1, p2, p3])
    (hheader : jsToLowerCase ((jsSplitStr SPLITTER p0).headD "") = PATH.HEADER_KEY)
    (hpurpose : jsParseIntOpt ((jsSplitStr SPLITTER p0).get? 1) = some PATH.PURPOSE)
    (hcoin : jsParseInt p1 = some PATH.COIN_MAINNET ∨
      jsParseInt p1 = some PATH.COIN_TESTNET)
    (haccount : matchDIGITS p2 = true)
    (hdigits : (jsSplitStr SPLITTER p3).all matchDIGITS = true)
    (hmany : 3 ≤ (jsSplitStr SPLITTER p3).length) :
    derivationPathValidator (JSValue.str s) =
      Except.error (JSError.error (" ".intercalate
        [derivationPathMessages.notValidAccountIndex ++ ":", strOrUndefined p3])) := by
  have h2 : ¬((jsSplitStr SPLITTER p3).length ≤ 2) := by omega
  have hh : jsToLowerCase ((jsSplitStr SPLITTER p0).head?.getD "") = PATH.HEADER_KEY := by
    rw [← List.headD_eq_head?]
    exact hheader
  have hp : jsParseIntOpt ((jsSplitStr SPLITTER p0)[1]?) = some PATH.PURPOSE := by
    rw [← List.get?_eq_getElem?]
    exact hpurpose
  rcases hcoin with hc | hc <;>
    simp [derivationPathValidator, assertTruth, hsplit, jsParseIntOpt_some, hh,
      hp, hc, haccount, hdigits, h2, validatorGenerator, runSequence]

/-- C7 witness: `derivationPath_too_many_indices` applied to
`m/44'/60'/0'/0/1/2`, whose change/index segment has the 3 digit-only
sub-parts 0, 1, 2. -/
theorem derivationPath_too_many_indices_witness :
    derivationPathValidator (JSValue.str "m/44'/60'/0'/0/1/2") =
      Except.error (JSError.error (" ".intercalate
        [derivationPathMessages.notValidAccountIndex ++ ":",
          strOrUndefined "0/1/2"])) := by
  exact derivationPath_too_many_indices "m/44'/60'/0'/0/1/2" "m/44" "60" "0" "0/1/2"
    (by rfl) (by rfl) (by rfl) (Or.inl (by rfl)) (by rfl) (by rfl) (by decide)

/-- C9: for every build-time environment value, the facade's exported
surface carries the debug helper exactly when the environment is the
non-production value `development`, and always carries the wallets,
utils and about members. -/
theorem facade_debug_conditional :
    ∀ env : String,
      ((("debug", ExportVal.debugObj) ∈ colonyWallet env) ↔ env = "development") ∧
      ("wallets", ExportVal.walletsObj ["software", "trezor", "ledger"]) ∈
        colonyWallet env ∧
      ("utils", ExportVal.utilsObj ["bigNumber", "getRandomValues"]) ∈
        colonyWallet env ∧
      ("about", ExportVal.aboutObj ["name", "version", "environment"]) ∈
        colonyWallet env := by
  intro env
  by_cases h : env = "development" <;>
    simp [colonyWallet, jsObjectAssign, debugExport, h]

/-- C9 witness: `facade_debug_conditional` applied at the development
and production environments: the debug helper is present in the first
surface and absent from the second. -/
theorem facade_debug_conditional_witness :
    ("debug", ExportVal.debugObj) ∈ colonyWallet "development" ∧
    ("debug", ExportVal.debugObj) ∉ colonyWallet "production" := by
  refine ⟨(facade_debug_conditional "development").1.2 rfl, fun h => ?_⟩
  exact absurd ((facade_debug_conditional "production").1.1 h) (by decide)
